import Mathlib

/-!
Verification of the flamaster account/commerce resource layer.

The Python sources under flamaster/core/resources.py, flamaster/account/api.py
and flamaster/product/tasks.py are shallowly embedded below: pure computations
become Lean functions, the database and the HTTP session become explicit state
records, and every fallible handler returns an explicit outcome value.
Machine integers in the source are CPython integers (arbitrary precision), so
Nat and Int model them exactly; the source runs under Python 2 semantics
(integer division on int operands truncates, which on non-negative values is
floor division).

External collaborators (the ORM query engine, trafaret validation, the
flask-security datastore) are modelled at their interfaces: lists of rows for
tables, association lists for validated data, and explicit parameters for
externally supplied predicates such as password verification.  Repository code
that is referenced but not part of the sources in scope (model helpers such as
Cart.for_customer, Cart.expired, User.is_unique, BankAccount.check_owner and
the model base as_dict) is modelled from the specification; each such
definition carries a doc comment saying so.
-/

namespace Flamaster

/-! ## Core pagination (flamaster/core/resources.py, Resource._prepare_pagination) -/

/-- Embedding of line 66 of core/resources.py:
`last_page = int(count / self.page_size) + (count % self.page_size and 1)`.
Python 2 division of non-negative ints is floor division, and
`x and 1` evaluates to `0` when `x == 0` and to `1` otherwise. -/
def lastPage (count page_size : Nat) : Nat :=
  count / page_size + (if count % page_size = 0 then 0 else 1)

/-- The record returned by `Resource._prepare_pagination` (the `objects` query
itself is kept separately; only the numeric fields are embedded). -/
structure Paging where
  bound : Nat
  count : Nat
  last_page : Nat
  offset : Nat
  page : Nat
  page_size : Nat
  deriving Repr, DecidableEq

/-- Embedding of `Resource._prepare_pagination` (core/resources.py lines
63-81).  `page` is the requested page stored by `clean_args` and `count` the
size of the object query:
```
last_page = int(count / self.page_size) + (count % self.page_size and 1)
page = self.page if self.page < last_page else last_page
page = page if page > 0 else 1
offset = (page - 1) * self.page_size
bound = min(self.page_size * page, count)
``` -/
def preparePagination (page count page_size : Nat) : Paging :=
  let last_page := lastPage count page_size
  let page1 := if page < last_page then page else last_page
  let page2 := if page1 > 0 then page1 else 1
  { bound := min (page_size * page2) count
    count := count
    last_page := last_page
    offset := (page2 - 1) * page_size
    page := page2
    page_size := page_size }

/-- Number of rows produced by `objects.limit(limit).offset(offset)` on a
query of `count` rows (`ModelResource.paginate`, core/resources.py lines
235-239): the offset skips rows first, the limit caps what remains. -/
def limitOffsetCount (count offset limit : Nat) : Nat :=
  min limit (count - offset)

theorem lastPage_eq_ceil (count page_size : Nat) (h : 0 < page_size) :
    lastPage count page_size = (count + page_size - 1) / page_size := by
  obtain ⟨q, r, hr_lt, rfl⟩ :
      ∃ q r, r < page_size ∧ count = page_size * q + r :=
    ⟨count / page_size, count % page_size, Nat.mod_lt _ h,
      by rw [Nat.div_add_mod]⟩
  unfold lastPage
  rw [Nat.mul_add_div h, Nat.mul_add_mod, Nat.div_eq_of_lt hr_lt,
    Nat.mod_eq_of_lt hr_lt, Nat.add_zero]
  by_cases hr : r = 0
  · subst hr
    have hsplit : page_size * q + 0 + page_size - 1
        = page_size * q + (page_size - 1) := by omega
    rw [if_pos rfl, hsplit, Nat.mul_add_div h,
      Nat.div_eq_of_lt (by omega), Nat.add_zero]
  · have hsplit : page_size * q + r + page_size - 1
        = page_size * (q + 1) + (r - 1) := by
      rw [Nat.mul_add, Nat.mul_one]
      omega
    rw [if_neg hr, hsplit, Nat.mul_add_div h,
      Nat.div_eq_of_lt (by omega), Nat.add_zero]

theorem lastPage_zero_iff (count page_size : Nat) (h : 0 < page_size) :
    lastPage count page_size = 0 ↔ count = 0 := by
  unfold lastPage
  have hdm := Nat.div_add_mod count page_size
  constructor
  · intro hlp
    by_cases hr : count % page_size = 0
    · rw [if_pos hr, Nat.add_zero] at hlp
      rw [hlp, Nat.mul_zero, hr] at hdm
      omega
    · rw [if_neg hr] at hlp
      exact absurd hlp (Nat.succ_ne_zero _)
  · intro hc
    subst hc
    simp [Nat.zero_div, Nat.zero_mod]

theorem preparePagination_page_clamped (page count page_size : Nat) :
    (preparePagination page count page_size).page
      = max 1 (min page (lastPage count page_size)) := by
  unfold preparePagination
  simp only []
  split <;> split <;> omega

theorem preparePagination_offset_lt_count (page count page_size : Nat)
    (h : 0 < page_size) (hc : 0 < count) :
    (preparePagination page count page_size).offset < count := by
  have hlp : 0 < lastPage count page_size := by
    rcases Nat.eq_zero_or_pos (lastPage count page_size) with h0 | hpos
    · have := (lastPage_zero_iff count page_size h).mp h0
      omega
    · exact hpos
  have hpage := preparePagination_page_clamped page count page_size
  have hple : (preparePagination page count page_size).page
      ≤ lastPage count page_size := by omega
  have heq : lastPage count page_size - 1 = (count - 1) / page_size := by
    rw [lastPage_eq_ceil count page_size h]
    have hsplit : count + page_size - 1 = (count - 1) + page_size := by omega
    rw [hsplit, Nat.add_div_right _ h]
    exact Nat.add_sub_cancel _ _
  have hmul : (lastPage count page_size - 1) * page_size ≤ count - 1 := by
    calc (lastPage count page_size - 1) * page_size
        = (count - 1) / page_size * page_size := by rw [heq]
      _ ≤ count - 1 := Nat.div_mul_le_self _ _
  have hmono : ((preparePagination page count page_size).page - 1) * page_size
      ≤ (lastPage count page_size - 1) * page_size :=
    Nat.mul_le_mul_right page_size (by omega)
  calc (preparePagination page count page_size).offset
      = ((preparePagination page count page_size).page - 1) * page_size := rfl
    _ ≤ (lastPage count page_size - 1) * page_size := hmono
    _ ≤ count - 1 := hmul
    _ < count := by omega

/-- C1: pagination arithmetic of `Resource._prepare_pagination`.  For every
item count, positive page size and requested page: `last_page` is
`floor(count/page_size)` plus one exactly when the division leaves a
remainder, which is ceiling division `(count + page_size - 1) / page_size` and
is `0` when `count = 0`; the served page is the requested page clamped into
`[1, last_page]` and never below 1, so it is `max 1 (min page last_page)`;
`offset = (page - 1) * page_size`; `bound = min(page_size * page, count)`;
and the offset plus the number of rows returned by
`limit(page_size).offset(offset)` never exceeds `count`. -/
theorem c1_prepare_pagination_math (page count page_size : Nat)
    (h : 0 < page_size) :
    (preparePagination page count page_size).last_page
        = count / page_size + (if count % page_size = 0 then 0 else 1)
    ∧ (preparePagination page count page_size).last_page
        = (count + page_size - 1) / page_size
    ∧ (count = 0 → (preparePagination page count page_size).last_page = 0)
    ∧ (preparePagination page count page_size).page
        = max 1 (min page (preparePagination page count page_size).last_page)
    ∧ (preparePagination page count page_size).offset
        = ((preparePagination page count page_size).page - 1) * page_size
    ∧ (preparePagination page count page_size).bound
        = min (page_size * (preparePagination page count page_size).page) count
    ∧ (preparePagination page count page_size).offset
        + limitOffsetCount count (preparePagination page count page_size).offset page_size
        ≤ count := by
  refine ⟨rfl, ?_, ?_, ?_, rfl, rfl, ?_⟩
  · exact lastPage_eq_ceil count page_size h
  · intro hc
    show lastPage count page_size = 0
    exact (lastPage_zero_iff count page_size h).mpr hc
  · exact preparePagination_page_clamped page count page_size
  · rcases Nat.eq_zero_or_pos count with hc | hc
    · subst hc
      have hoff0 : (preparePagination page 0 page_size).offset = 0 := by
        unfold preparePagination lastPage
        simp
      rw [hoff0]
      simp [limitOffsetCount]
    · have := preparePagination_offset_lt_count page count page_size h hc
      unfold limitOffsetCount
      omega

/-- Witness for C1 at a concrete input: `count = 7`, `page_size = 3`,
requested page `5`; the served page is clamped to the last page `3`. -/
theorem c1_prepare_pagination_math_witness :
    (0 : Nat) < 3
    ∧ (preparePagination 5 7 3).last_page = 3
    ∧ (preparePagination 5 7 3).page = 3
    ∧ (preparePagination 5 7 3).offset = 6
    ∧ (preparePagination 5 7 3).bound = 7
    ∧ (preparePagination 5 7 3).offset
        + limitOffsetCount 7 (preparePagination 5 7 3).offset 3 ≤ 7 := by
  have h := c1_prepare_pagination_math 5 7 3 (by decide)
  exact ⟨by decide, by decide, by decide, by decide, by decide,
        h.2.2.2.2.2.2⟩

/-! ## Account data model (flamaster/account/api.py)

Rows of the relational store are lists of records keyed by their primary id.
The HTTP session is a record of the keys the source reads and writes. -/

/-- A row of the users table.  `customer_id` is the id of the Customer row the
user is associated with (`user.customer.id` in the source); the association
itself lives in the model layer, whose field contract the spec gives in its
data-model section. -/
structure User where
  id : Nat
  email : String
  password : String
  customer_id : Nat
  is_superuser : Bool
  deriving Repr, DecidableEq

/-- A row of the customers table.  `user_id = none` is an anonymous (guest)
customer per the spec data model. -/
structure Customer where
  id : Nat
  user_id : Option Nat
  deriving Repr, DecidableEq

/-- A row of the carts table: a reservation of `amount` units of a price
option against the matching shelves, last touched at `touched_at` (time is a
natural number of seconds). -/
structure Cart where
  id : Nat
  customer_id : Nat
  price_option_id : Nat
  amount : Nat
  touched_at : Nat
  deriving Repr, DecidableEq

/-- The relational state the session resource touches. -/
structure DBState where
  users : List User
  customers : List Customer
  carts : List Cart
  deriving Repr, DecidableEq

/-- The HTTP session as the source reads it: `session['id']`,
`session.get('user_id')`, `session.get('customer_id')`, plus the
`current_user.is_anonymous()` flag maintained by the login layer. -/
structure Session where
  id : Nat
  user_id : Option Nat
  customer_id : Option Nat
  cur_anonymous : Bool
  deriving Repr, DecidableEq

/-- The state snapshot built by `SessionResource._get_response`
(account/api.py lines 107-114). -/
structure Snapshot where
  id : Nat
  is_anonymous : Bool
  uid : Option Nat
  deriving Repr, DecidableEq

def getResponse (sess : Session) : Snapshot :=
  { id := sess.id, is_anonymous := sess.cur_anonymous, uid := sess.user_id }

/-- The flask-security datastore lookup `_security.datastore.find_user(email=...)`
modelled at its interface: the user row matching the email, or nothing when the
email is unknown. -/
def findUser (users : List User) (email : String) : Option User :=
  users.find? (fun u => u.email == email)

/-- `Customer.query.get(customer_id)`: primary-key lookup. -/
def getCustomer (customers : List Customer) (cid : Nat) : Option Customer :=
  customers.find? (fun c => c.id == cid)

/-- `login_user(user)` (flask-security) modelled at its interface: the session
now carries the user id and `current_user` is no longer anonymous.  The
`customer_id` session key is untouched. -/
def loginUser (sess : Session) (user : User) : Session :=
  { sess with user_id := some user.id, cur_anonymous := false }

/-- Modelled from the spec: `Cart.for_customer` (flamaster/product/models.py is
not among the sources).  Spec 4.4: on login "that Customer's Cart contents are
reassigned to the authenticated user's Customer", so the query selects the cart
rows belonging to the given customer and the bulk update rewrites their
`customer_id`. -/
def reassignCarts (carts : List Cart) (customer : Customer) (user : User) :
    List Cart :=
  carts.map (fun c =>
    if c.customer_id == customer.id then { c with customer_id := user.customer_id }
    else c)

/-- `customer.delete()`: removes the row keyed by the customer primary id. -/
def deleteCustomer (customers : List Customer) (customer : Customer) :
    List Customer :=
  customers.filter (fun c => c.id != customer.id)

/-- The cleaned body of a session POST or PUT: `email` required,
`password` optional (`data_dict.get('password')`). -/
structure AuthData where
  email : String
  password : Option String
  deriving Repr, DecidableEq

/-- The raw JSON body before validation. -/
structure RawBody where
  email : Option String
  password : Option String
  deriving Repr, DecidableEq

/-- Embedding of `SessionResource.clean` (account/api.py lines 78-79): the
trafaret schema requires an `email` key that passes the external `t.Email`
check (passed in as `emailOk`), keeps `password` optional and ignores extra
keys; a missing body (`request.json` is `None`) fails the check.  A failed
check raises `t.DataError`, here the list of offending field names. -/
def cleanSession (emailOk : String → Bool) (body : Option RawBody) :
    Except (List String) AuthData :=
  match body with
  | none => Except.error ["email"]
  | some b =>
    match b.email with
    | none => Except.error ["email"]
    | some e =>
      if emailOk e then Except.ok { email := e, password := b.password }
      else Except.error ["email"]

/-- Outcome of `SessionResource._authenticate`. -/
inductive AuthResult where
  /-- normal return: updated store and session -/
  | ok (db : DBState) (sess : Session)
  /-- `raise t.DataError(...)`: the offending field names -/
  | dataError (fields : List String)
  /-- an unhandled Python exception: `user.password` evaluated on a missing
  user raises AttributeError, which nothing in the resource catches -/
  | crash
  deriving Repr, DecidableEq

/-- Embedding of `SessionResource._authenticate` (account/api.py lines
81-105).  `verify` is the external `verify_password(given, stored)`:
```
user = _security.datastore.find_user(email=data_dict['email'])
if verify_password(data_dict.get('password'), user.password):
    login_user(user)
    customer_id = session.get('customer_id')
    if customer_id is not None:
        customer = Customer.query.get(customer_id)
        if customer is not None and customer.user_id is None:
            Cart.for_customer(customer).update({'customer_id': user.customer.id})
            customer.delete()
    session['customer_id'] = user.customer.id
else:
    raise t.DataError({'email': "..."})
```
When `find_user` yields no user, the attribute access `user.password` is an
unhandled failure. -/
def authenticate (verify : Option String → String → Bool)
    (db : DBState) (sess : Session) (data : AuthData) : AuthResult :=
  match findUser db.users data.email with
  | none => AuthResult.crash
  | some user =>
    if verify data.password user.password then
      let sess1 := loginUser sess user
      let db1 :=
        match sess1.customer_id with
        | none => db
        | some cid =>
          match getCustomer db.customers cid with
          | none => db
          | some customer =>
            if customer.user_id = none then
              { db with
                carts := reassignCarts db.carts customer user
                customers := deleteCustomer db.customers customer }
            else db
      AuthResult.ok db1 { sess1 with customer_id := some user.customer_id }
    else
      AuthResult.dataError ["email"]

/-- Outcome of `SessionResource.put`. -/
inductive PutResult where
  /-- 202 with the state snapshot -/
  | accepted (db : DBState) (sess : Session) (snapshot : Snapshot)
  /-- 404 with the field-error mapping -/
  | notFound (fields : List String)
  /-- an unhandled exception escaping the handler -/
  | crash
  deriving Repr, DecidableEq

/-- Embedding of `SessionResource.put` (account/api.py lines 56-67): the body
is cleaned, `_authenticate` runs, and only `t.DataError` is caught, turning
into a 404 with the error mapping. -/
def sessionPut (verify : Option String → String → Bool)
    (emailOk : String → Bool) (db : DBState) (sess : Session)
    (body : Option RawBody) : PutResult :=
  match cleanSession emailOk body with
  | Except.error fields => PutResult.notFound fields
  | Except.ok data =>
    match authenticate verify db sess data with
    | AuthResult.ok db1 sess1 => PutResult.accepted db1 sess1 (getResponse sess1)
    | AuthResult.dataError fields => PutResult.notFound fields
    | AuthResult.crash => PutResult.crash

/-- Modelled from the spec: `User.is_unique` (flamaster/account/models.py is
not among the sources).  Spec 4.4 POST: "rejects if email already registered",
so the check holds exactly when no user row carries the email. -/
def isUnique (users : List User) (email : String) : Bool :=
  users.all (fun u => u.email != email)

/-- `register_user(email=..., password=...)` (flask-security registerable)
modelled at its interface: a fresh account with the given credentials is added
to the user table.  The fresh row ids are the store's choice; the next free
index stands in for them. -/
def registerUser (db : DBState) (email password : String) : DBState :=
  { db with
    users := db.users ++
      [{ id := db.users.length, email := email, password := password,
         customer_id := 0, is_superuser := false }] }

/-- Outcome of `SessionResource.post`. -/
inductive PostResult where
  /-- 201 with the state snapshot -/
  | created (db : DBState) (snapshot : Snapshot)
  /-- 400 with the field-error mapping -/
  | badRequest (fields : List String)
  deriving Repr, DecidableEq

/-- Embedding of `SessionResource.post` (account/api.py lines 40-54):
```
data = self.clean(request.json)
if not User.is_unique(data['email']):
    raise t.DataError({'email': _("This email is already taken")})
register_user(email=data['email'], password=data.get('password', '*'))
response, status = self._get_response(), http.CREATED
```
with `t.DataError` caught into a 400. -/
def sessionPost (emailOk : String → Bool) (db : DBState) (sess : Session)
    (body : Option RawBody) : PostResult :=
  match cleanSession emailOk body with
  | Except.error fields => PostResult.badRequest fields
  | Except.ok data =>
    if ¬ isUnique db.users data.email then PostResult.badRequest ["email"]
    else
      PostResult.created
        (registerUser db data.email (data.password.getD "*"))
        (getResponse sess)

/-! ## C2: the login cart merge -/

/-- C2: on a successful session-authenticate PUT whose pre-login session
carries a `customer_id` resolving to an existing Customer with no linked user,
`_authenticate` reassigns every cart row of that customer to the authenticated
user's customer id, deletes the anonymous customer row (the id no longer
resolves), and stores the authenticated user's customer id in the session. -/
theorem c2_login_merges_anonymous_cart
    (verify : Option String → String → Bool) (db : DBState) (sess : Session)
    (data : AuthData) (user : User) (cid : Nat) (customer : Customer)
    (hfind : findUser db.users data.email = some user)
    (hverify : verify data.password user.password = true)
    (hsess : sess.customer_id = some cid)
    (hcust : getCustomer db.customers cid = some customer)
    (hanon : customer.user_id = none) :
    ∃ db1 sess1, authenticate verify db sess data = AuthResult.ok db1 sess1
      ∧ db1.carts = db.carts.map (fun c =>
          if c.customer_id = cid then { c with customer_id := user.customer_id }
          else c)
      ∧ getCustomer db1.customers cid = none
      ∧ sess1.customer_id = some user.customer_id := by
  have hcid : customer.id = cid := by
    have := List.find?_some hcust
    simpa using this
  subst hcid
  refine ⟨{ db with
              carts := reassignCarts db.carts customer user
              customers := deleteCustomer db.customers customer },
          { loginUser sess user with customer_id := some user.customer_id },
          ?_, ?_, ?_, rfl⟩
  · simp [authenticate, hfind, hverify, loginUser, hsess, hcust, hanon]
  · simp only [reassignCarts]
    apply List.map_congr_left
    intro c _
    by_cases hc : c.customer_id = customer.id
    · simp [hc]
    · simp [hc]
  · apply List.find?_eq_none.mpr
    intro x hx
    have hxf := (List.mem_filter.mp hx).2
    simp only [bne_iff_ne, ne_eq] at hxf
    simp [hxf]

def c2Verify : Option String → String → Bool := fun p stored => p == some stored

def c2User : User :=
  { id := 1, email := "a@x", password := "pw", customer_id := 10,
    is_superuser := false }

def c2Db : DBState :=
  { users := [c2User]
    customers := [{ id := 7, user_id := none }, { id := 10, user_id := some 1 }]
    carts := [{ id := 1, customer_id := 7, price_option_id := 3, amount := 2,
                touched_at := 0 }] }

def c2Sess : Session :=
  { id := 1, user_id := none, customer_id := some 7, cur_anonymous := true }

def c2Data : AuthData := { email := "a@x", password := some "pw" }

/-- Witness for C2 at a concrete store: the anonymous customer 7 holds one
cart; after login the cart belongs to customer 10 and customer 7 is gone. -/
theorem c2_login_merges_anonymous_cart_witness :
    ∃ db1 sess1, authenticate c2Verify c2Db c2Sess c2Data = AuthResult.ok db1 sess1
      ∧ db1.carts = c2Db.carts.map (fun c =>
          if c.customer_id = 7 then { c with customer_id := c2User.customer_id }
          else c)
      ∧ getCustomer db1.customers 7 = none
      ∧ sess1.customer_id = some c2User.customer_id :=
  c2_login_merges_anonymous_cart c2Verify c2Db c2Sess c2Data c2User 7
    { id := 7, user_id := none }
    (by decide) (by decide) (by decide) (by decide) (by decide)

/-! ## C4: failure modes of the session-authenticate PUT -/

def c4Db : DBState :=
  { users := [{ id := 1, email := "a@x", password := "pw", customer_id := 10,
                is_superuser := false }]
    customers := [], carts := [] }

def c4Sess : Session :=
  { id := 1, user_id := none, customer_id := none, cur_anonymous := true }

/-- C4: at the failing input (a PUT whose email resolves to no account) the
handler does not produce the claimed 404 field-error response: `find_user`
yields no user and the attribute access `user.password` is an unhandled
failure that the `except t.DataError` clause cannot catch.  A password
mismatch for a known account, by contrast, does give the 404 field error. -/
theorem c4_unknown_email_unhandled :
    sessionPut c2Verify (fun e => e.length > 0) c4Db c4Sess
        (some { email := some "ghost@x", password := some "pw" })
      = PutResult.crash
    ∧ sessionPut c2Verify (fun e => e.length > 0) c4Db c4Sess
        (some { email := some "a@x", password := some "wrong" })
      = PutResult.notFound ["email"]
    ∧ PutResult.crash ≠ PutResult.notFound ["email"] := by
  refine ⟨by decide, by decide, by decide⟩

/-! ## C8: session POST registration -/

theorem isUnique_eq_false_of_mem (users : List User) (e : String)
    (u : User) (hu : u ∈ users) (he : u.email = e) :
    isUnique users e = false := by
  unfold isUnique
  rw [List.all_eq_false]
  exact ⟨u, hu, by simp [he]⟩

/-- C8: for every session POST whose body passes validation, an already
registered email yields a 400 whose error mapping names the `email` field; a
fresh email registers the account and answers 201 with the session snapshot;
and a second POST of the same body after a successful one takes the 400
path. -/
theorem c8_session_post_register (emailOk : String → Bool) (db : DBState)
    (sess : Session) (body : Option RawBody) (data : AuthData)
    (hclean : cleanSession emailOk body = Except.ok data) :
    ((∃ u ∈ db.users, u.email = data.email) →
        sessionPost emailOk db sess body = PostResult.badRequest ["email"])
    ∧ (isUnique db.users data.email = true →
        sessionPost emailOk db sess body
          = PostResult.created
              (registerUser db data.email (data.password.getD "*"))
              (getResponse sess)
        ∧ sessionPost emailOk
              (registerUser db data.email (data.password.getD "*")) sess body
          = PostResult.badRequest ["email"]) := by
  constructor
  · rintro ⟨u, hu, he⟩
    have hfalse := isUnique_eq_false_of_mem db.users data.email u hu he
    simp [sessionPost, hclean, hfalse]
  · intro huniq
    constructor
    · simp [sessionPost, hclean, huniq]
    · have hmem : ∃ u ∈ (registerUser db data.email (data.password.getD "*")).users,
          u.email = data.email := by
        refine ⟨{ id := db.users.length, email := data.email,
                  password := data.password.getD "*", customer_id := 0,
                  is_superuser := false }, ?_, rfl⟩
        simp [registerUser]
      obtain ⟨u, hu, he⟩ := hmem
      have hfalse := isUnique_eq_false_of_mem _ data.email u hu he
      simp [sessionPost, hclean, hfalse]

def c8Body : Option RawBody := some { email := some "new@x", password := none }

/-- Witness for C8: registering `new@x` on an empty store answers 201 and a
repeat of the same POST answers 400 with the `email` field error. -/
theorem c8_session_post_register_witness :
    sessionPost (fun e => e.length > 0) { users := [], customers := [], carts := [] }
        c4Sess c8Body
      = PostResult.created
          (registerUser { users := [], customers := [], carts := [] } "new@x" "*")
          (getResponse c4Sess)
    ∧ sessionPost (fun e => e.length > 0)
        (registerUser { users := [], customers := [], carts := [] } "new@x" "*")
        c4Sess c8Body
      = PostResult.badRequest ["email"] :=
  (c8_session_post_register (fun e => e.length > 0)
    { users := [], customers := [], carts := [] } c4Sess c8Body
    { email := "new@x", password := none } rfl).2 (by decide)

/-! ## C3: bank account ownership (account/api.py, BankAccountResource) -/

/-- A row of the bank_accounts table (only the fields the ownership logic
reads). -/
structure BankAccount where
  id : Nat
  user_id : Nat
  deriving Repr, DecidableEq

/-- Modelled from the spec: `BankAccount.check_owner`
(flamaster/account/models.py is not among the sources).  Spec 4.6: "GET-object
enforces that only the owner ... may read a given account", so the check holds
exactly when the account belongs to the given user. -/
def checkOwner (acc : BankAccount) (u : User) : Bool :=
  acc.user_id == u.id

/-- Embedding of `BankAccountResource.get_objects` (account/api.py lines
325-335).  `argsUserId` is the optional `user_id` query-string argument; for a
non-superuser it is overwritten with the caller id, so the query is always
scoped to the caller's own rows:
```
if 'user_id' in request.args: kwargs['user_id'] = request.args['user_id']
if not current_user.is_superuser(): kwargs['user_id'] = current_user.id
return self.model.query.filter_by(**kwargs)
```
`idFilter` carries the `id=id` kwarg added by `ModelResource.get_object`. -/
def bankGetObjects (caller : User) (argsUserId : Option Nat)
    (accounts : List BankAccount) (idFilter : Option Nat) : List BankAccount :=
  let kwargsUser : Option Nat :=
    if ¬ caller.is_superuser then some caller.id else argsUserId
  accounts.filter (fun a =>
    (match idFilter with
     | none => true
     | some i => a.id == i)
    && (match kwargsUser with
        | none => true
        | some uid => a.user_id == uid))

/-- Outcome of a BankAccount GET by id. -/
inductive GetObjectResult where
  /-- 200 with the serialized account -/
  | ok (acc : BankAccount)
  /-- 404 from `first_or_404` on an empty scoped query -/
  | notFound
  /-- 401 from `abort(http.UNAUTHORIZED)` -/
  | unauthorized
  deriving Repr, DecidableEq

/-- Embedding of `BankAccountResource.get_object` (account/api.py lines
319-323) over `ModelResource.get_object` (core/resources.py lines 229-233):
the scoped query is narrowed by id and `first_or_404` aborts with 404 when it
is empty; a surviving row is answered if owner or superuser, else 401. -/
def bankGetObject (caller : User) (argsUserId : Option Nat)
    (accounts : List BankAccount) (id : Nat) : GetObjectResult :=
  match (bankGetObjects caller argsUserId accounts (some id)).head? with
  | none => GetObjectResult.notFound
  | some acc =>
    if checkOwner acc caller || caller.is_superuser then GetObjectResult.ok acc
    else GetObjectResult.unauthorized

theorem mem_bankGetObjects (caller : User) (argsUserId : Option Nat)
    (accounts : List BankAccount) (idFilter : Option Nat) (a : BankAccount) :
    a ∈ bankGetObjects caller argsUserId accounts idFilter ↔
      a ∈ accounts
      ∧ (∀ i, idFilter = some i → a.id = i)
      ∧ (caller.is_superuser = false → a.user_id = caller.id)
      ∧ (caller.is_superuser = true →
          ∀ uid, argsUserId = some uid → a.user_id = uid) := by
  unfold bankGetObjects
  rw [List.mem_filter]
  cases hc : caller.is_superuser <;> cases idFilter <;> cases argsUserId <;>
    simp [hc]

def c3Caller : User :=
  { id := 2, email := "b@x", password := "pw", customer_id := 20,
    is_superuser := false }

/-- C3 counterexample: caller 2 (not a superuser, not the owner) asks for
account 1 owned by user 1; the scoped query `filter_by(id=1, user_id=2)` is
empty, so `first_or_404` answers 404, not the claimed 401. -/
theorem c3_non_owner_gets_404_not_401 :
    bankGetObject c3Caller none [{ id := 1, user_id := 1 }] 1
      = GetObjectResult.notFound
    ∧ bankGetObject c3Caller none [{ id := 1, user_id := 1 }] 1
      ≠ GetObjectResult.unauthorized := by
  refine ⟨by decide, by decide⟩

/-- C3 as amended: a non-owner non-superuser caller gets 404 (the query is
pre-scoped to the caller's rows, so the lookup misses and the 401 branch is
unreachable); the owner and any superuser get 200 with an account carrying the
requested id (the owner one of their own rows); and the list query returns
only caller-owned rows for a non-superuser. -/
theorem c3_bank_account_ownership (caller : User) (argsUserId : Option Nat)
    (accounts : List BankAccount) (id : Nat) :
    (caller.is_superuser = false →
        (∀ a ∈ accounts, a.id = id → a.user_id ≠ caller.id) →
        bankGetObject caller argsUserId accounts id = GetObjectResult.notFound)
    ∧ (caller.is_superuser = false →
        (∃ a ∈ accounts, a.id = id ∧ a.user_id = caller.id) →
        ∃ acc, bankGetObject caller argsUserId accounts id = GetObjectResult.ok acc
          ∧ acc.id = id ∧ acc.user_id = caller.id)
    ∧ (caller.is_superuser = true →
        (∃ a ∈ accounts, a.id = id) →
        ∃ acc, bankGetObject caller none accounts id = GetObjectResult.ok acc
          ∧ acc.id = id)
    ∧ (caller.is_superuser = false →
        ∀ a ∈ bankGetObjects caller argsUserId accounts none,
          a.user_id = caller.id) := by
  refine ⟨?_, ?_, ?_, ?_⟩
  · intro hsup hnone
    have hnil : bankGetObjects caller argsUserId accounts (some id) = [] := by
      apply List.eq_nil_iff_forall_not_mem.mpr
      intro a hmem
      rw [mem_bankGetObjects] at hmem
      exact hnone a hmem.1 (hmem.2.1 id rfl) (hmem.2.2.1 hsup)
    unfold bankGetObject
    rw [hnil]
    rfl
  · intro hsup ⟨a, ha, hid, huid⟩
    have hmem : a ∈ bankGetObjects caller argsUserId accounts (some id) := by
      rw [mem_bankGetObjects]
      refine ⟨ha, by simp [hid], fun _ => huid, fun htrue => ?_⟩
      rw [hsup] at htrue
      cases htrue
    rcases hhead : (bankGetObjects caller argsUserId accounts (some id)).head? with
      _ | ⟨acc⟩
    · rw [List.head?_eq_none_iff] at hhead
      rw [hhead] at hmem
      cases hmem
    · have haccmem := List.mem_of_mem_head? hhead
      rw [mem_bankGetObjects] at haccmem
      have haccid : acc.id = id := haccmem.2.1 id rfl
      have haccuid : acc.user_id = caller.id := haccmem.2.2.1 hsup
      refine ⟨acc, ?_, haccid, haccuid⟩
      unfold bankGetObject
      rw [hhead]
      simp [checkOwner, haccuid]
  · intro hsup ⟨a, ha, hid⟩
    have hmem : a ∈ bankGetObjects caller none accounts (some id) := by
      rw [mem_bankGetObjects]
      refine ⟨ha, by simp [hid], fun hfalse => ?_, by simp⟩
      rw [hsup] at hfalse
      cases hfalse
    rcases hhead : (bankGetObjects caller none accounts (some id)).head? with
      _ | ⟨acc⟩
    · rw [List.head?_eq_none_iff] at hhead
      rw [hhead] at hmem
      cases hmem
    · have haccmem := List.mem_of_mem_head? hhead
      rw [mem_bankGetObjects] at haccmem
      refine ⟨acc, ?_, haccmem.2.1 id rfl⟩
      unfold bankGetObject
      rw [hhead]
      simp [hsup]
  · intro hsup a hmem
    rw [mem_bankGetObjects] at hmem
    exact hmem.2.2.1 hsup

/-- Witness for the amended C3: owner 2 reads account 3, superuser 9 reads
account 1, and the list for caller 2 is scoped to user 2. -/
theorem c3_bank_account_ownership_witness :
    (∃ acc, bankGetObject c3Caller none
        [{ id := 1, user_id := 1 }, { id := 3, user_id := 2 }] 3
        = GetObjectResult.ok acc ∧ acc.id = 3 ∧ acc.user_id = c3Caller.id)
    ∧ (∃ acc, bankGetObject
        { id := 9, email := "s@x", password := "pw", customer_id := 90,
          is_superuser := true } none [{ id := 1, user_id := 1 }] 1
        = GetObjectResult.ok acc ∧ acc.id = 1) := by
  constructor
  · exact (c3_bank_account_ownership c3Caller none
      [{ id := 1, user_id := 1 }, { id := 3, user_id := 2 }] 3).2.1
      (by decide) ⟨{ id := 3, user_id := 2 }, by decide, by decide, by decide⟩
  · exact (c3_bank_account_ownership
      { id := 9, email := "s@x", password := "pw", customer_id := 90,
        is_superuser := true } none [{ id := 1, user_id := 1 }] 1).2.2.1
      (by decide) ⟨{ id := 1, user_id := 1 }, by decide, by decide⟩

/-! ## C5: profile serialization (account/api.py, ProfileResource.serialize) -/

/-- The viewer (`g.user`) or the serialized target of a profile request; only
the fields the serializer consults. -/
structure ProfileUser where
  id : Nat
  is_anonymous : Bool
  is_superuser : Bool
  deriving Repr, DecidableEq

/-- The include list of `ProfileResource.serialize` (account/api.py lines
204-206): the reduced public view of a user; it carries neither `email` nor
`password`. -/
def profileIncludeFields : List String :=
  ["first_name", "last_name", "created_at", "phone", "current_login_at",
   "active", "billing_address", "logged_at", "is_superuser"]

/-- Modelled from the spec: the model base `as_dict(include, exclude)`
(flamaster/core/models.py is not among the sources).  Spec 4.5 describes the
serialized output as a view named by the include list with the excluded
fields removed ("a reduced, email-excluded view"), so as_dict yields the
names of the emitted fields: the include list minus the exclude list. -/
def asDictFields (includeList exclude : List String) : List String :=
  includeList.filter (fun f => ¬ exclude.contains f)

/-- Embedding of `ProfileResource.serialize` (account/api.py lines 202-214):
```
exclude = ['password']
include = ["first_name", ..., 'is_superuser']
if g.user.is_anonymous() or instance.is_anonymous():
    return instance.as_dict(include, exclude)
if g.user.id != instance.id or g.user.is_superuser() is False:
    exclude.append('email')
return instance.as_dict(include, exclude)
``` -/
def profileSerialize (viewer target : ProfileUser) : List String :=
  let exclude := ["password"]
  if viewer.is_anonymous || target.is_anonymous then
    asDictFields profileIncludeFields exclude
  else
    let exclude1 :=
      if viewer.id ≠ target.id || viewer.is_superuser == false then
        exclude ++ ["email"]
      else exclude
    asDictFields profileIncludeFields exclude1

theorem profileSerialize_cases (viewer target : ProfileUser) :
    profileSerialize viewer target = asDictFields profileIncludeFields ["password"]
    ∨ profileSerialize viewer target
        = asDictFields profileIncludeFields ["password", "email"] := by
  unfold profileSerialize
  by_cases h1 : viewer.is_anonymous || target.is_anonymous
  · left
    simp [h1]
  · by_cases h2 : ¬viewer.id = target.id ∨ viewer.is_superuser = false
    · right
      simp [h1]
      rw [if_pos h2]
    · left
      simp [h1]
      rw [if_neg h2]

/-- C5: profile serialization never emits the `password` field; it does not
emit `email` when the viewer is neither the target user nor a superuser; and
when the viewer or the target is anonymous the output is exactly the reduced
email-free view `as_dict(include, ['password'])`. -/
theorem c5_profile_serialization (viewer target : ProfileUser) :
    "password" ∉ profileSerialize viewer target
    ∧ (viewer.id ≠ target.id → viewer.is_superuser = false →
        "email" ∉ profileSerialize viewer target)
    ∧ (viewer.is_anonymous = true ∨ target.is_anonymous = true →
        profileSerialize viewer target
          = asDictFields profileIncludeFields ["password"]
        ∧ "email" ∉ profileSerialize viewer target) := by
  have hmem : ∀ f, f ∈ profileSerialize viewer target → f ∈ profileIncludeFields := by
    intro f hf
    rcases profileSerialize_cases viewer target with heq | heq <;>
      [skip; skip] <;>
      · rw [heq] at hf
        exact (List.mem_filter.mp hf).1
  have hpw : "password" ∉ profileSerialize viewer target := by
    intro hf
    have := hmem _ hf
    revert this
    decide
  have hem : "email" ∉ profileSerialize viewer target := by
    intro hf
    have := hmem _ hf
    revert this
    decide
  refine ⟨hpw, fun _ _ => hem, fun hanon => ⟨?_, hem⟩⟩
  unfold profileSerialize
  have h1 : (viewer.is_anonymous || target.is_anonymous) = true := by
    rcases hanon with h | h <;> simp [h]
  simp [h1]

/-- Witness for C5: a non-superuser viewer of a different user gets neither
`password` nor `email`; an anonymous viewer gets the reduced view. -/
theorem c5_profile_serialization_witness :
    "password" ∉ profileSerialize
        { id := 1, is_anonymous := false, is_superuser := false }
        { id := 2, is_anonymous := false, is_superuser := false }
    ∧ "email" ∉ profileSerialize
        { id := 1, is_anonymous := false, is_superuser := false }
        { id := 2, is_anonymous := false, is_superuser := false }
    ∧ profileSerialize
        { id := 3, is_anonymous := true, is_superuser := false }
        { id := 2, is_anonymous := false, is_superuser := false }
      = asDictFields profileIncludeFields ["password"] := by
  have h1 := c5_profile_serialization
    { id := 1, is_anonymous := false, is_superuser := false }
    { id := 2, is_anonymous := false, is_superuser := false }
  have h2 := c5_profile_serialization
    { id := 3, is_anonymous := true, is_superuser := false }
    { id := 2, is_anonymous := false, is_superuser := false }
  exact ⟨h1.1, h1.2.1 (by decide) (by decide), (h2.2.2 (Or.inl rfl)).1⟩

/-! ## C6: role deletion (account/api.py, RoleResource.delete) -/

/-- A row of the roles table. -/
structure Role where
  id : Nat
  name : String
  deriving Repr, DecidableEq

/-- Embedding of `RoleResource.delete` (account/api.py lines 291-293): the
body is the single statement `abort(http.METHOD_NOT_ALLOWED)`; the caller and
the role table are never consulted and no row is touched.  The result is the
HTTP status paired with the unchanged role table. -/
def roleDelete (caller : User) (id : Nat) (roles : List Role) :
    Nat × List Role :=
  (405, roles)

/-- Embedding of `Resource.dispatch_request` (core/resources.py lines 24-53)
for a RoleResource DELETE: `method_decorators` declares wrappers for post and
put only, so delete dispatches straight to the handler; the class-level
`login_required` decorator turns away unauthenticated callers (modelled as
`none`) before dispatch. -/
def roleDispatchDelete (caller : Option User) (id : Nat) (roles : List Role) :
    Nat × List Role :=
  match caller with
  | none => (401, roles)
  | some u => roleDelete u id roles

/-- C6: every authenticated caller, whatever their superuser flag or roles,
receives 405 from a Role DELETE and the role table is unchanged: no role is
ever deleted through this endpoint. -/
theorem c6_role_delete_always_405 (caller : User) (id : Nat)
    (roles : List Role) :
    roleDispatchDelete (some caller) id roles = (405, roles) :=
  rfl

/-! ## C7: the cart expiry task (product/tasks.py, drop_unordered_cart_items) -/

/-- A row of the shelves table: available stock of a price option. -/
structure Shelf where
  id : Nat
  price_option_id : Nat
  quantity : Nat
  deriving Repr, DecidableEq

/-- The state the expiry task touches. -/
structure ShopState where
  carts : List Cart
  shelves : List Shelf
  deriving Repr, DecidableEq

/-- Modelled from the spec: `Cart.expired` (flamaster/product/models.py is not
among the sources).  Spec 4.7: the task "finds carts last touched before the
cutoff", so the query selects the carts whose last-touch timestamp is strictly
before the marker. -/
def expiredCarts (marker : Nat) (carts : List Cart) : List Cart :=
  carts.filter (fun c => decide (c.touched_at < marker))

/-- One iteration of the restock loop (product/tasks.py lines 9-11):
`Shelf.query.filter_by(price_option_id=cart.price_option_id)
 .update(quantity=Shelf.quantity + cart.amount)`. -/
def restockShelves (shelves : List Shelf) (cart : Cart) : List Shelf :=
  shelves.map (fun s =>
    if s.price_option_id == cart.price_option_id then
      { s with quantity := s.quantity + cart.amount }
    else s)

/-- Embedding of `drop_unordered_cart_items` (product/tasks.py lines 6-15).
Time is a natural number of seconds; the cutoff is 20 minutes before now:
```
expirity_marker = datetime.utcnow() - timedelta(minutes=20)
expired_q = Cart.expired(expirity_marker)
for cart in expired_q: ...restock...
response = expired_q.count()
expired_q.delete()
db.session.commit()
return response
```
The count is taken before the bulk delete; the commit makes the whole
mutation one transaction, so the returned pair is the count plus the final
state. -/
def dropUnorderedCartItems (now : Nat) (st : ShopState) : Nat × ShopState :=
  let marker := now - 20 * 60
  let expired_q := expiredCarts marker st.carts
  let shelves1 := expired_q.foldl restockShelves st.shelves
  let response := expired_q.length
  let carts1 := st.carts.filter (fun c => ! decide (c.touched_at < marker))
  (response, { carts := carts1, shelves := shelves1 })

/-- Total amount reserved against a price option by the given carts. -/
def sumAmount (cs : List Cart) (poid : Nat) : Nat :=
  (cs.map (fun c => if c.price_option_id == poid then c.amount else 0)).sum

theorem foldl_restockShelves (cs : List Cart) (shelves : List Shelf) :
    cs.foldl restockShelves shelves
      = shelves.map (fun s =>
          { s with quantity := s.quantity + sumAmount cs s.price_option_id }) := by
  induction cs generalizing shelves with
  | nil =>
    have hid : (fun s : Shelf =>
        { s with quantity := s.quantity + sumAmount [] s.price_option_id })
        = fun s => s := by
      funext s
      cases s
      simp [sumAmount]
    rw [List.foldl_nil, hid, List.map_id']
  | cons c cs ih =>
    rw [List.foldl_cons, ih]
    show (restockShelves shelves c).map _ = _
    unfold restockShelves
    rw [List.map_map]
    apply List.map_congr_left
    intro s _
    simp only [Function.comp]
    by_cases hp : s.price_option_id = c.price_option_id
    · simp [sumAmount, hp]
      omega
    · simp [sumAmount, hp, Ne.symm hp]

theorem sumAmount_eq_filter_sum (cs : List Cart) (poid : Nat) :
    sumAmount cs poid
      = ((cs.filter (fun c => c.price_option_id == poid)).map
          (fun c => c.amount)).sum := by
  induction cs with
  | nil => rfl
  | cons c cs ih =>
    by_cases hp : c.price_option_id = poid
    · simp [sumAmount, List.filter_cons, hp] at *
      omega
    · simp [sumAmount, List.filter_cons, hp] at *
      exact ih

/-- C7: one run of the expiry task on a store holding a cart last touched
before the 20-minute cutoff, the only expired reservation against its price
option: the run returns the number of expired carts (positive here), removes
exactly the carts older than the cutoff (the given cart among them), raises
every shelf quantity by the total expired reservation on its price option —
exactly `cart.amount` for the shelves the cart reserved against — and an
immediately following second run matches no carts and returns 0. -/
theorem c7_cart_expiry_task (now : Nat) (st : ShopState) (cart : Cart)
    (hmem : cart ∈ st.carts)
    (hexp : cart.touched_at < now - 20 * 60)
    (honly : (expiredCarts (now - 20 * 60) st.carts).filter
        (fun c => c.price_option_id == cart.price_option_id) = [cart]) :
    (dropUnorderedCartItems now st).1
        = (expiredCarts (now - 20 * 60) st.carts).length
    ∧ 0 < (dropUnorderedCartItems now st).1
    ∧ (dropUnorderedCartItems now st).2.carts
        = st.carts.filter (fun c => ! decide (c.touched_at < now - 20 * 60))
    ∧ cart ∉ (dropUnorderedCartItems now st).2.carts
    ∧ (dropUnorderedCartItems now st).2.shelves
        = st.shelves.map (fun s =>
            { s with quantity := s.quantity + sumAmount (expiredCarts (now - 20 * 60) st.carts) s.price_option_id })
    ∧ (∀ s ∈ st.shelves, s.price_option_id = cart.price_option_id →
          { s with quantity := s.quantity + cart.amount }
            ∈ (dropUnorderedCartItems now st).2.shelves)
    ∧ (dropUnorderedCartItems now (dropUnorderedCartItems now st).2).1 = 0 := by
  have hcartexp : cart ∈ expiredCarts (now - 20 * 60) st.carts := by
    unfold expiredCarts
    rw [List.mem_filter]
    exact ⟨hmem, by simp [hexp]⟩
  have hshelves : (dropUnorderedCartItems now st).2.shelves
      = st.shelves.map (fun s =>
          { s with quantity := s.quantity + sumAmount (expiredCarts (now - 20 * 60) st.carts) s.price_option_id }) := by
    show (expiredCarts (now - 20 * 60) st.carts).foldl restockShelves st.shelves
        = _
    exact foldl_restockShelves _ _
  refine ⟨rfl, ?_, rfl, ?_, hshelves, ?_, ?_⟩
  · show 0 < (expiredCarts (now - 20 * 60) st.carts).length
    exact List.length_pos.mpr (List.ne_nil_of_mem hcartexp)
  · intro hbad
    have := (List.mem_filter.mp hbad).2
    simp [hexp] at this
  · intro s hs hpo
    have hsum : sumAmount (expiredCarts (now - 20 * 60) st.carts)
        s.price_option_id = cart.amount := by
      rw [hpo, sumAmount_eq_filter_sum, honly]
      simp
    rw [hshelves]
    rw [List.mem_map]
    refine ⟨s, hs, ?_⟩
    rw [hsum]
  · show (expiredCarts (now - 20 * 60) (dropUnorderedCartItems now st).2.carts).length
        = 0
    rw [List.length_eq_zero]
    apply List.eq_nil_iff_forall_not_mem.mpr
    intro c hc
    have h1 := (List.mem_filter.mp hc).2
    have h2 := (List.mem_filter.mp (List.mem_filter.mp hc).1).2
    simp at h1 h2
    omega

def c7Cart : Cart :=
  { id := 1, customer_id := 7, price_option_id := 3, amount := 2,
    touched_at := 100 }

def c7State : ShopState :=
  { carts := [c7Cart,
              { id := 2, customer_id := 8, price_option_id := 3, amount := 5,
                touched_at := 5000 }]
    shelves := [{ id := 1, price_option_id := 3, quantity := 10 }] }

/-- Witness for C7 at `now = 5000`: cart 1 (touched at 100) is expired, cart 2
(touched at 5000) is not; the run reclaims one cart, restores shelf 1 to 12
units, and a second run reclaims nothing. -/
theorem c7_cart_expiry_task_witness :
    (dropUnorderedCartItems 5000 c7State).1 = 1
    ∧ ({ id := 1, price_option_id := 3, quantity := 12 } : Shelf)
        ∈ (dropUnorderedCartItems 5000 c7State).2.shelves
    ∧ (dropUnorderedCartItems 5000 (dropUnorderedCartItems 5000 c7State).2).1
        = 0 := by
  have h := c7_cart_expiry_task 5000 c7State c7Cart (by decide) (by decide)
    (by decide)
  refine ⟨by decide, ?_, h.2.2.2.2.2.2⟩
  have := h.2.2.2.2.2.1 { id := 1, price_option_id := 3, quantity := 10 }
    (by decide) (by decide)
  simpa [c7Cart] using this

/-! ## C9 and C10: filter-schema pagination keys (core/resources.py,
Resource.clean_args and ModelResource._filter)

The trafaret validation library is external; its Dict/Key machinery is
modelled at its interface.  A key has a name, a value check (the trafaret,
here over the integer request values the pagination keys take) and an
optional default.  `Dict.check` walks the declared keys: a present argument
is validated, an absent one falls back to the default or, lacking one, is
dropped (`make_optional`); extra arguments are ignored (`ignore_extra`); a
failed check raises `t.DataError` naming the key. -/

structure FilterKey where
  name : String
  check : Int → Bool
  default : Option Int

def lookupArg (args : List (String × Int)) (n : String) : Option Int :=
  (args.find? (fun p => p.1 == n)).map (fun p => p.2)

def dictCheck : List FilterKey → List (String × Int) →
    Except String (List (String × Int))
  | [], _ => Except.ok []
  | k :: ks, args =>
    match dictCheck ks args with
    | Except.error e => Except.error e
    | Except.ok rest =>
      match lookupArg args k.name with
      | some v =>
        if k.check v then Except.ok ((k.name, v) :: rest)
        else Except.error k.name
      | none =>
        match k.default with
        | some d => Except.ok ((k.name, d) :: rest)
        | none => Except.ok rest

/-- The trafaret `t.Int(gt=bound)` check on a request value. -/
def intGt (bound : Int) : Int → Bool := fun v => bound < v

/-- The injected page key of `clean_args` (core/resources.py lines 147-151):
`t.Key('page', default=1)` with trafaret `t.Int(gt=0)`. -/
def pageKey : FilterKey := { name := "page", check := intGt 0, default := some 1 }

/-- The injected page_size key (lines 152-156): `t.Key('page_size',
default=self.page_size)` with trafaret `t.Int(gt=0)`. -/
def pageSizeKey (page_size : Int) : FilterKey :=
  { name := "page_size", check := intGt 0, default := some page_size }

/-- The `Resource.page_size` class attribute (core/resources.py line 22). -/
def defaultPageSize : Int := 20

/-- Embedding of the key injection of `clean_args` (lines 146-156): a page
key is appended unless the declared schema already names one, then a
page_size key likewise. -/
def injectPaginationKeys (keys : List FilterKey) (page_size : Int) :
    List FilterKey :=
  let keys1 := if keys.any (fun k => k.name == "page") then keys
               else keys ++ [pageKey]
  if keys1.any (fun k => k.name == "page_size") then keys1
  else keys1 ++ [pageSizeKey page_size]

/-- The data `clean_args` leaves behind: the validated filter data with both
pagination keys popped, and the popped `self.page` / `self.page_size`. -/
structure CleanArgsResult where
  data : List (String × Int)
  page : Int
  page_size : Int
  deriving Repr, DecidableEq

/-- Embedding of `Resource.clean_args` (core/resources.py lines 145-162):
```
...inject page / page_size keys...
data = self.filters_map.check(request_args.copy())
self.page = data.pop('page', 1)
self.page_size = data.pop('page_size', self.page_size)
return data
``` -/
def cleanArgs (keys : List FilterKey) (page_size : Int)
    (args : List (String × Int)) : Except String CleanArgsResult :=
  match dictCheck (injectPaginationKeys keys page_size) args with
  | Except.error e => Except.error e
  | Except.ok data =>
    Except.ok
      { data := (data.filter (fun p => p.1 != "page")).filter
          (fun p => p.1 != "page_size")
        page := (lookupArg data "page").getD 1
        page_size := (lookupArg data "page_size").getD page_size }

theorem dictCheck_append (ks1 ks2 : List FilterKey)
    (args : List (String × Int)) :
    dictCheck (ks1 ++ ks2) args
      = match dictCheck ks2 args with
        | Except.error e => Except.error e
        | Except.ok rest =>
          match dictCheck ks1 args with
          | Except.error e => Except.error e
          | Except.ok d => Except.ok (d ++ rest)
      := by
  induction ks1 with
  | nil =>
    cases h : dictCheck ks2 args <;> simp [dictCheck, h]
  | cons k ks ih =>
    rw [List.cons_append]
    simp only [dictCheck]
    rw [ih]
    cases h2 : dictCheck ks2 args with
    | error e => rfl
    | ok rest =>
      cases h1 : dictCheck ks args with
      | error e => rfl
      | ok d =>
        cases hl : lookupArg args k.name with
        | some v =>
          by_cases hc : k.check v <;> simp [hc]
        | none =>
          cases k.default <;> rfl

theorem dictCheck_names (keys : List FilterKey) (args : List (String × Int))
    (d : List (String × Int)) (hok : dictCheck keys args = Except.ok d) :
    ∀ p ∈ d, ∃ k ∈ keys, p.1 = k.name := by
  induction keys generalizing d with
  | nil =>
    simp only [dictCheck] at hok
    cases hok
    intro p hp
    cases hp
  | cons k ks ih =>
    simp only [dictCheck] at hok
    split at hok
    · cases hok
    · rename_i rest h1
      split at hok
      · rename_i v hl
        split at hok
        · cases hok
          intro p hp
          rcases List.mem_cons.mp hp with hp | hp
          · exact ⟨k, List.mem_cons_self _ _, by rw [hp]⟩
          · obtain ⟨k2, hk2, he⟩ := ih rest h1 p hp
            exact ⟨k2, List.mem_cons_of_mem _ hk2, he⟩
        · cases hok
      · split at hok
        · cases hok
          intro p hp
          rcases List.mem_cons.mp hp with hp | hp
          · exact ⟨k, List.mem_cons_self _ _, by rw [hp]⟩
          · obtain ⟨k2, hk2, he⟩ := ih rest h1 p hp
            exact ⟨k2, List.mem_cons_of_mem _ hk2, he⟩
        · cases hok
          intro p hp
          obtain ⟨k2, hk2, he⟩ := ih _ h1 p hp
          exact ⟨k2, List.mem_cons_of_mem _ hk2, he⟩

theorem lookupArg_append_of_absent (d rest : List (String × Int)) (n : String)
    (habs : ∀ p ∈ d, p.1 ≠ n) :
    lookupArg (d ++ rest) n = lookupArg rest n := by
  unfold lookupArg
  rw [List.find?_append]
  have : d.find? (fun p => p.1 == n) = none := by
    apply List.find?_eq_none.mpr
    intro p hp
    simp [habs p hp]
  rw [this]
  rfl

theorem dictCheck_tail_spec (ps : Int) (args : List (String × Int))
    (rest : List (String × Int))
    (h : dictCheck [pageKey, pageSizeKey ps] args = Except.ok rest) :
    rest = [("page", (lookupArg args "page").getD 1),
            ("page_size", (lookupArg args "page_size").getD ps)]
    ∧ (∀ v, lookupArg args "page" = some v → 0 < v)
    ∧ (∀ w, lookupArg args "page_size" = some w → 0 < w) := by
  simp only [dictCheck, pageKey, pageSizeKey, intGt] at h
  cases hv : lookupArg args "page" with
  | none =>
    cases hw : lookupArg args "page_size" with
    | none =>
      rw [hv, hw] at h
      simp only [] at h
      cases h
      refine ⟨by simp, ?_, ?_⟩
      · intro x hx
        cases hx
      · intro x hx
        cases hx
    | some w =>
      rw [hv, hw] at h
      simp only [] at h
      split at h
      · cases h
      · rename_i rest1 heqw
        split at heqw
        · rename_i hcondw
          cases heqw
          cases h
          refine ⟨by simp, ?_, ?_⟩
          · intro x hx
            cases hx
          · intro w2 hw2
            cases hw2
            exact of_decide_eq_true hcondw
        · cases heqw
  | some v =>
    cases hw : lookupArg args "page_size" with
    | none =>
      rw [hv, hw] at h
      simp only [] at h
      split at h
      · rename_i hcondv
        cases h
        refine ⟨by simp, ?_, ?_⟩
        · intro v2 hv2
          cases hv2
          exact of_decide_eq_true hcondv
        · intro x hx
          cases hx
      · cases h
    | some w =>
      rw [hv, hw] at h
      simp only [] at h
      split at h
      · cases h
      · rename_i rest1 heqw
        split at h
        · rename_i hcondv
          cases h
          split at heqw
          · rename_i hcondw
            cases heqw
            refine ⟨by simp, ?_, ?_⟩
            · intro v2 hv2
              cases hv2
              exact of_decide_eq_true hcondv
            · intro w2 hw2
              cases hw2
              exact of_decide_eq_true hcondw
          · cases heqw
        · cases h

/-- C9: `clean_args` merges the two implicit pagination keys into the
declared filter schema before validation: a `page` key (integer > 0, default
1) and a `page_size` key (integer > 0, default `self.page_size`, the class
default being 20); after a successful check both keys are gone from the
returned filter data and their values are what is stored as the pagination
parameters: the request value (necessarily positive, or the check would have
failed) when present, the default otherwise. -/
theorem c9_clean_args_pagination (keys : List FilterKey) (ps : Int)
    (args : List (String × Int))
    (hk : ∀ k ∈ keys, k.name ≠ "page" ∧ k.name ≠ "page_size") :
    injectPaginationKeys keys ps = keys ++ [pageKey, pageSizeKey ps]
    ∧ ∀ res, cleanArgs keys ps args = Except.ok res →
        (∀ p ∈ res.data, p.1 ≠ "page" ∧ p.1 ≠ "page_size")
        ∧ res.page = (lookupArg args "page").getD 1
        ∧ res.page_size = (lookupArg args "page_size").getD ps
        ∧ (∀ v, lookupArg args "page" = some v → 0 < v)
        ∧ (∀ w, lookupArg args "page_size" = some w → 0 < w) := by
  have hpage_any : keys.any (fun k => k.name == "page") = false := by
    rw [List.any_eq_false]
    intro k hkk
    simp [(hk k hkk).1]
  have hps_any : keys.any (fun k => k.name == "page_size") = false := by
    rw [List.any_eq_false]
    intro k hkk
    simp [(hk k hkk).2]
  have hinj : injectPaginationKeys keys ps = keys ++ [pageKey, pageSizeKey ps] := by
    unfold injectPaginationKeys
    simp [hpage_any, hps_any, List.any_append, pageKey, pageSizeKey]
  refine ⟨hinj, ?_⟩
  intro res hok
  unfold cleanArgs at hok
  rw [hinj, dictCheck_append] at hok
  split at hok
  · cases hok
  · rename_i data heq
    split at heq
    · cases heq
    · rename_i rest hrest
      split at heq
      · cases heq
      · rename_i d hd
        cases heq
        cases hok
        obtain ⟨hrest_eq, hvpos, hwpos⟩ := dictCheck_tail_spec ps args rest hrest
        subst hrest_eq
        have hd_names := dictCheck_names keys args d hd
        have habs1 : ∀ p ∈ d, p.1 ≠ "page" := by
          intro p hp
          obtain ⟨k2, hk2, he⟩ := hd_names p hp
          rw [he]
          exact (hk k2 hk2).1
        refine ⟨?_, ?_, ?_, hvpos, hwpos⟩
        · intro p hp
          have h2 := List.mem_filter.mp hp
          have h1 := List.mem_filter.mp h2.1
          constructor
          · simpa using h1.2
          · simpa using h2.2
        · show (lookupArg (d ++ _) "page").getD 1 = _
          rw [lookupArg_append_of_absent _ _ _ habs1]
          simp [lookupArg]
        · show (lookupArg (d ++ _) "page_size").getD ps = _
          have habs2 : ∀ p ∈ d, p.1 ≠ "page_size" := by
            intro p hp
            obtain ⟨k2, hk2, he⟩ := hd_names p hp
            rw [he]
            exact (hk k2 hk2).2
          rw [lookupArg_append_of_absent _ _ _ habs2]
          simp [lookupArg]

/-- Witness for C9 on the base resource schema (no declared filter keys, the
class default page size 20): the query string `page=3&color=7` yields page 3,
page size 20, and filter data without the pagination keys; `page=0` fails the
gt-0 check. -/
theorem c9_clean_args_pagination_witness :
    injectPaginationKeys [] defaultPageSize
        = [pageKey, pageSizeKey defaultPageSize]
    ∧ (∀ res, cleanArgs [] defaultPageSize [("page", 3), ("color", 7)]
          = Except.ok res →
        (∀ p ∈ res.data, p.1 ≠ "page" ∧ p.1 ≠ "page_size")
        ∧ res.page = 3 ∧ res.page_size = 20)
    ∧ cleanArgs [] defaultPageSize [("page", 0)] = Except.error "page" := by
  have h := c9_clean_args_pagination [] defaultPageSize
    [("page", 3), ("color", 7)] (by intro k hkk; cases hkk)
  refine ⟨h.1, ?_, by rfl⟩
  intro res hres
  have h2 := h.2 res hres
  exact ⟨h2.1, h2.2.1, h2.2.2.1⟩

/-! ## C10: query-filter validation failures are only logged -/

/-- What `ModelResource._filter` leaves behind: the kwargs for the
`filter_by` query, the pagination attributes when they were stored, and the
logged data error if one was caught. -/
structure FilterOutcome where
  kwargs : List (String × Int)
  page : Option Int
  page_size_attr : Int
  logged : Option String
  deriving Repr, DecidableEq

/-- Embedding of `ModelResource._filter` (core/resources.py lines 206-219):
```
if self.filters_map_default:
    try:
        self.filter_args = self.clean_args(request.args)
        query_kwargs.update(self.filter_args)
    except t.DataError as err:
        current_app.logger.info("Error in filters: %s", err.as_dict())
return query_kwargs
```
The `except` clause swallows the validation error: it is written to the log
and the function returns normally, so the outcome carries no error case at
all — nothing propagates to the 400-producing body-validation path.  On the
error path `self.page` is never assigned (`none` here) and `self.page_size`
keeps its previous value. -/
def modelFilter (keys : List FilterKey) (page_size : Int)
    (args : List (String × Int)) (query_kwargs : List (String × Int)) :
    FilterOutcome :=
  match cleanArgs keys page_size args with
  | Except.ok res =>
      { kwargs := query_kwargs ++ res.data
        page := some res.page
        page_size_attr := res.page_size
        logged := none }
  | Except.error e =>
      { kwargs := query_kwargs
        page := none
        page_size_attr := page_size
        logged := some e }

/-- C10: when query-string validation raises a data error, `_filter` catches
it: the request filters are dropped (the query kwargs come back unchanged),
the error is only logged, and the function returns normally — this path can
never produce the 400 field-error response that body validation produces. -/
theorem c10_filter_error_only_logged (keys : List FilterKey)
    (page_size : Int) (args query_kwargs : List (String × Int)) (e : String)
    (herr : cleanArgs keys page_size args = Except.error e) :
    modelFilter keys page_size args query_kwargs
      = { kwargs := query_kwargs
          page := none
          page_size_attr := page_size
          logged := some e } := by
  unfold modelFilter
  rw [herr]

/-- Witness for C10: `page=0` fails validation; the kwargs survive untouched
and the error is logged. -/
theorem c10_filter_error_only_logged_witness :
    modelFilter [] 20 [("page", 0)] [("user_id", 5)]
      = { kwargs := [("user_id", 5)]
          page := none
          page_size_attr := 20
          logged := some "page" } :=
  c10_filter_error_only_logged [] 20 [("page", 0)] [("user_id", 5)] "page" rfl

end Flamaster
